import Mathlib

/-!
Verification of the request-caching and persistence-normalization core of
final_proj.py (a Flask app fetching location data from the Zipcode API and
business data from the Yelp Fusion API, caching raw JSON responses in a file
and mirroring normalized records into a SQLite store).

The Python source is shallowly embedded below.  Python dictionaries holding
JSON documents become the inductive type Json; the JSON file cache becomes an
association list from canonical keys to Json documents (assignment is modelled
by consing, which has the same lookup semantics as dictionary overwrite);
raising Python exceptions (KeyError, TypeError, ...) becomes Except String;
printing the cache-hit and cache-miss markers becomes an explicit CallPath
value; the network transport (requests.get) becomes an explicit fetch
function passed as a parameter; the SQLite connection becomes a pair of
durable and working table states, where closing without committing discards
the working state (Python sqlite3 wraps DML in an implicit transaction that
is rolled back when the connection is closed without commit).
-/

namespace FinalProj

/-- Scalar Python values that appear as request parameters (ints and strs). -/
inductive PyVal where
  | vInt (n : Int)
  | vStr (s : String)
deriving DecidableEq

/-- Python f-string formatting of a scalar parameter value. -/
def pyFormat : PyVal → String
  | .vInt n => toString n
  | .vStr s => s

/-- JSON documents as produced by response.json() in the source. -/
inductive Json where
  | jnull
  | jbool (b : Bool)
  | jint (n : Int)
  | jstr (s : String)
  | jarr (elems : List Json)
  | jobj (fields : List (String × Json))

/-- Python string comparison (lexicographic on code points), as used by
list.sort() in construct_unique_key.  This is less-or-equal. -/
def listLe : List Char → List Char → Bool
  | [], _ => true
  | _ :: _, [] => false
  | a :: as, b :: bs =>
    if a < b then true
    else if b < a then false
    else listLe as bs

theorem listLe_total : ∀ a b : List Char, listLe a b = true ∨ listLe b a = true
  | [], _ => Or.inl rfl
  | _ :: _, [] => Or.inr rfl
  | a :: as, b :: bs => by
    rcases lt_trichotomy a b with h | h | h
    · exact Or.inl (by simp [listLe, h])
    · subst h
      rcases listLe_total as bs with ih | ih
      · exact Or.inl (by simp [listLe, ih])
      · exact Or.inr (by simp [listLe, ih])
    · exact Or.inr (by simp [listLe, h])

theorem listLe_trans : ∀ a b c : List Char,
    listLe a b = true → listLe b c = true → listLe a c = true
  | [], _, _, _, _ => rfl
  | _ :: _, [], _, h, _ => by simp [listLe] at h
  | _ :: _, _ :: _, [], _, h => by simp [listLe] at h
  | a :: as, b :: bs, c :: cs, hab, hbc => by
    by_cases h1 : a < b
    · by_cases h2 : b < c
      · simp [listLe, lt_trans h1 h2]
      · by_cases h3 : c < b
        · simp [listLe, hab, hbc, h2, h3] at hbc ⊢
        · have hbc' : b = c := le_antisymm (not_lt.mp h3) (not_lt.mp h2)
          subst hbc'
          simp [listLe, h1]
    · by_cases h1' : b < a
      · simp [listLe, h1, h1'] at hab
      · have hab' : a = b := le_antisymm (not_lt.mp h1') (not_lt.mp h1)
        subst hab'
        simp only [listLe, if_neg (lt_irrefl a)] at hab
        by_cases h2 : a < c
        · simp [listLe, h2]
        · by_cases h3 : c < a
          · simp [listLe, h2, h3] at hbc
          · have hac : a = c := le_antisymm (not_lt.mp h3) (not_lt.mp h2)
            subst hac
            simp only [listLe, if_neg (lt_irrefl a)] at hbc ⊢
            exact listLe_trans as bs cs hab hbc

theorem listLe_antisymm : ∀ a b : List Char,
    listLe a b = true → listLe b a = true → a = b
  | [], [], _, _ => rfl
  | [], _ :: _, _, h => by simp [listLe] at h
  | _ :: _, [], h, _ => by simp [listLe] at h
  | a :: as, b :: bs, hab, hba => by
    by_cases h1 : a < b
    · simp [listLe, h1, asymm h1] at hba
    · by_cases h2 : b < a
      · simp [listLe, h1, h2] at hab
      · have hab' : a = b := le_antisymm (not_lt.mp h2) (not_lt.mp h1)
        subst hab'
        simp only [listLe, if_neg (lt_irrefl a)] at hab hba
        rw [listLe_antisymm as bs hab hba]

/-- The Python string order as a proposition on Lean strings. -/
def pyStrLe (a b : String) : Prop := listLe a.data b.data = true

instance : DecidableRel pyStrLe := fun a b =>
  inferInstanceAs (Decidable (listLe a.data b.data = true))

instance : IsTotal String pyStrLe := ⟨fun a b => listLe_total a.data b.data⟩

instance : IsTrans String pyStrLe := ⟨fun a b c => listLe_trans a.data b.data c.data⟩

instance : IsAntisymm String pyStrLe :=
  ⟨fun a b hab hba => String.toList_inj.mp (listLe_antisymm a.data b.data hab hba)⟩

/-- Python list.sort() on strings: a stable comparison sort.  Because the
order is total, transitive and antisymmetric, its output is the unique sorted
permutation of its input, so insertion sort is an exact model. -/
def pySort (l : List String) : List String := List.insertionSort pyStrLe l

/-- Embedding of construct_unique_key (final_proj.py lines 109-140): format
each parameter as key_value, sort the fragments, join with underscores and
prepend the base url and an underscore.  The params dictionary is modelled as
an association list in iteration order. -/
def construct_unique_key (baseurl : String) (params : List (String × PyVal)) : String :=
  let param_strings := params.map (fun p => p.1 ++ "_" ++ pyFormat p.2)
  baseurl ++ "_" ++ String.intercalate "_" (pySort param_strings)

/-! ### The file cache and the get-or-fetch gate -/

/-- The JSON file cache, modelled as an association list from canonical keys
to raw documents.  open_cache loads this state and save_cache persists it;
dictionary assignment is modelled by consing, which has the same lookup
semantics as overwriting. -/
def Cache : Type := List (String × Json)

/-- Dictionary membership and lookup, as in query_url in CACHE_DICT.keys(). -/
def cacheLookup (c : Cache) (k : String) : Option Json := List.lookup k c

/-- Dictionary assignment CACHE_DICT[query_url] = value. -/
def cacheInsert (c : Cache) (k : String) (v : Json) : Cache := (k, v) :: c

/-- The observable control path of a gate call: the source prints the marker
fetching cached data on a hit and making new request on a miss. -/
inductive CallPath where
  | cachedData
  | newRequest
deriving DecidableEq

/-- Result of one gate call: the returned document, the cache state persisted
on disk afterwards, the printed path marker, and how many times the transport
(requests.get) was invoked during the call. -/
structure CallResult where
  result : Json
  cache : Cache
  path : CallPath
  calls : Nat

/-- Embedding of zip_make_request (lines 192-212): one transport invocation
on the given search url.  The transport itself is the opaque fetch. -/
def zip_make_request (fetch : String → Json) (search_url : String) : Json :=
  fetch search_url

/-- The query url built by zip_make_request_with_cache (line 241). -/
def zipQueryUrl (search_url : String) (zipcode : PyVal) : String :=
  search_url ++ pyFormat zipcode ++ "/degrees"

/-- Embedding of zip_make_request_with_cache (lines 214-254): load the cache,
build the query url, return the stored document on a hit, otherwise invoke
the transport once, store the result verbatim, persist and return it. -/
def zip_make_request_with_cache (fetch : String → Json) (cache : Cache)
    (search_url : String) (zipcode : PyVal) : CallResult :=
  let query_url := zipQueryUrl search_url zipcode
  match cacheLookup cache query_url with
  | some v => ⟨v, cache, CallPath.cachedData, 0⟩
  | none =>
    let r := zip_make_request fetch query_url
    ⟨r, cacheInsert cache query_url r, CallPath.newRequest, 1⟩

/-- Python str.lower restricted to ASCII letters, as applied by
yelp_make_request to string parameter values. -/
def pyLowerChar (c : Char) : Char :=
  if 65 ≤ c.toNat ∧ c.toNat ≤ 90 then Char.ofNat (c.toNat + 32) else c

/-- Lowercase a Python string (character by character). -/
def pyLower (s : String) : String := ⟨s.data.map pyLowerChar⟩

/-- The in-place parameter rewrite in yelp_make_request (lines 365-368):
every value of type str is lowercased, other values are left alone. -/
def lowerParams (params : List (String × PyVal)) : List (String × PyVal) :=
  params.map (fun p => match p.2 with
    | .vStr s => (p.1, PyVal.vStr (pyLower s))
    | v => (p.1, v))

/-- Embedding of yelp_make_request (lines 348-376): lowercase the string
parameter values, then perform the transport call with the lowered
parameters.  The second component records the parameters actually sent
upstream. -/
def yelp_make_request (fetch : String → List (String × PyVal) → Json)
    (baseurl : String) (params : List (String × PyVal)) :
    Json × List (String × PyVal) :=
  let sent := lowerParams params
  (fetch baseurl sent, sent)

/-- Result of one yelp gate call; sent records the transport parameters of
the live fetch, when one happened. -/
structure YelpCallResult where
  result : Json
  cache : Cache
  path : CallPath
  calls : Nat
  sent : Option (List (String × PyVal))

/-- The parameter dictionary built by yelp_make_request_with_cache
(lines 404-410), in insertion order. -/
def yelpParams (zipcode : Option PyVal) (term : Option String) :
    List (String × PyVal) :=
  [("limit", PyVal.vInt 10)] ++
    (match zipcode with | some z => [("location", z)] | none => []) ++
    (match term with | some t => [("term", PyVal.vStr t)] | none => [])

/-- Embedding of yelp_make_request_with_cache (lines 378-427): load the
cache, build the parameter dictionary, canonicalize it to a key, return the
stored document on a hit, otherwise call yelp_make_request once, store the
result verbatim, persist and return it.  The key is built from the parameter
values as supplied, before yelp_make_request lowercases them. -/
def yelp_make_request_with_cache (fetch : String → List (String × PyVal) → Json)
    (cache : Cache) (baseurl : String) (zipcode : Option PyVal)
    (term : Option String) : YelpCallResult :=
  let params := yelpParams zipcode term
  let query_url := construct_unique_key baseurl params
  match cacheLookup cache query_url with
  | some v => ⟨v, cache, CallPath.cachedData, 0, none⟩
  | none =>
    let r := yelp_make_request fetch baseurl params
    ⟨r.1, cacheInsert cache query_url r.1, CallPath.newRequest, 1, some r.2⟩

/-! ### Python JSON access primitives used by the normalizers -/

/-- Python subscripting j[k]: KeyError when the key is absent from a dict,
TypeError when the value is not a dict. -/
def pyGet (j : Json) (k : String) : Except String Json :=
  match j with
  | .jobj fields =>
    match List.lookup k fields with
    | some v => .ok v
    | none => .error ("KeyError: " ++ k)
  | _ => .error "TypeError: object is not subscriptable"

/-- Python membership test k in j.keys(): AttributeError when the value is
not a dict. -/
def pyHasKey (j : Json) (k : String) : Except String Bool :=
  match j with
  | .jobj fields => .ok (fields.any (fun p => p.1 == k))
  | _ => .error "AttributeError: object has no attribute keys"

/-- Python len(): defined on lists, strings and dicts, TypeError otherwise. -/
def pyLen : Json → Except String Nat
  | .jarr l => .ok l.length
  | .jstr s => .ok s.length
  | .jobj fields => .ok fields.length
  | _ => .error "TypeError: object has no len"

/-- Python indexing j[0]: first element of a list, first character of a
string, KeyError on a dict without an integer key, TypeError otherwise. -/
def pyIndexZero : Json → Except String Json
  | .jarr (x :: _) => .ok x
  | .jarr [] => .error "IndexError: list index out of range"
  | .jstr s =>
    match s.data with
    | c :: _ => .ok (.jstr (String.mk [c]))
    | [] => .error "IndexError: string index out of range"
  | .jobj _ => .error "KeyError: 0"
  | _ => .error "TypeError: object is not subscriptable"

/-- Python comparison value == (empty string): true exactly for the JSON
string with empty contents. -/
def isEmptyStr : Json → Bool
  | .jstr s => s == ""
  | _ => false

/-! ### The location normalizer -/

/-- The Zipcode class of the source: six fields, each holding whatever value
was extracted from the response (or a placeholder string). -/
structure Zipcode where
  zipcode : Json
  latitude : Json
  longitude : Json
  city : Json
  state : Json
  timezone : Json

/-- Embedding of get_zip_instance (lines 256-284): six unguarded
subscript extractions (timezone through one extra nesting level), then each
value equal to the empty string is replaced by its placeholder.  A missing
key raises KeyError and a non-dict input raises TypeError, both modelled as
Except.error. -/
def get_zip_instance (json_results : Json) : Except String Zipcode := do
  let zipcode ← pyGet json_results "zip_code"
  let latitude ← pyGet json_results "lat"
  let longitude ← pyGet json_results "lng"
  let city ← pyGet json_results "city"
  let state ← pyGet json_results "state"
  let tz ← pyGet json_results "timezone"
  let timezone ← pyGet tz "timezone_abbr"
  let zipcode := if isEmptyStr zipcode then Json.jstr "No Zipcode" else zipcode
  let latitude := if isEmptyStr latitude then Json.jstr "No Latitude" else latitude
  let longitude := if isEmptyStr longitude then Json.jstr "No Longitude" else longitude
  let city := if isEmptyStr city then Json.jstr "No City" else city
  let state := if isEmptyStr state then Json.jstr "No State" else state
  let timezone := if isEmptyStr timezone then Json.jstr "No Timezone" else timezone
  pure ⟨zipcode, latitude, longitude, city, state, timezone⟩

/-! ### The business normalizer -/

/-- The Yelp class of the source: nine fields per business record. -/
structure Yelp where
  name : Json
  zipcode : Json
  bus_type : Json
  phone : Json
  address : Json
  reviews : Json
  rating : Json
  price : Json
  link : Json

/-- The possible Python return values of format_nearby_places: the string
literal returned when the businesses key is missing, a single Yelp record
returned from inside the loop, or the implicit None when the loop body never
runs. -/
inductive PyRet where
  | strRet (s : String)
  | yelpRet (y : Yelp)
  | pyNone

/-- Embedding of the loop body of format_nearby_places (lines 444-524) on one
entry of the businesses list.  The guards for zip_code, address1 and title
consult the keys of the entry itself while the subsequent access indexes the
nested location object or the first category, exactly as in the source, so a
mismatch between the two can raise KeyError.  Every extracted value equal to
the empty string is replaced by its placeholder at the end, and the body
unconditionally returns the record of the entry it processed. -/
def formatBusinessEntry (e : Json) : Except String PyRet := do
  let hasName ← pyHasKey e "name"
  let name ← if hasName then pyGet e "name" else pure (Json.jstr "")
  let hasLoc ← pyHasKey e "location"
  let zipcode_address ←
    if hasLoc then do
      let hasZip ← pyHasKey e "zip_code"
      let zipcode ←
        if hasZip then do
          let loc ← pyGet e "location"
          pyGet loc "zip_code"
        else pure (Json.jstr "")
      let hasAddr ← pyHasKey e "address1"
      let address ←
        if hasAddr then do
          let loc ← pyGet e "location"
          pyGet loc "address1"
        else pure (Json.jstr "")
      pure (zipcode, address)
    else
      pure (Json.jstr "", Json.jstr "")
  let zipcode := zipcode_address.1
  let address := zipcode_address.2
  let hasCat ← pyHasKey e "categories"
  let bus_type ←
    if hasCat then do
      let cats ← pyGet e "categories"
      let n ← pyLen cats
      if 0 < n then do
        let hasTitle ← pyHasKey e "title"
        if hasTitle then do
          let cats2 ← pyGet e "categories"
          let c0 ← pyIndexZero cats2
          pyGet c0 "title"
        else pure (Json.jstr "")
      else pure (Json.jstr "")
    else pure (Json.jstr "")
  let hasPhone ← pyHasKey e "phone"
  let phone ← if hasPhone then pyGet e "phone" else pure (Json.jstr "")
  let hasRev ← pyHasKey e "review_count"
  let reviews ← if hasRev then pyGet e "review_count" else pure (Json.jstr "")
  let hasRating ← pyHasKey e "rating"
  let rating ← if hasRating then pyGet e "rating" else pure (Json.jstr "")
  let hasPrice ← pyHasKey e "price"
  let price ← if hasPrice then pyGet e "price" else pure (Json.jstr "")
  let hasUrl ← pyHasKey e "url"
  let link ← if hasUrl then pyGet e "url" else pure (Json.jstr "")
  let name := if isEmptyStr name then Json.jstr "No Name" else name
  let zipcode := if isEmptyStr zipcode then Json.jstr "No Zip" else zipcode
  let bus_type := if isEmptyStr bus_type then Json.jstr "No Type" else bus_type
  let phone := if isEmptyStr phone then Json.jstr "No Phone" else phone
  let address := if isEmptyStr address then Json.jstr "No Address" else address
  let reviews := if isEmptyStr reviews then Json.jstr "No Reviews" else reviews
  let rating := if isEmptyStr rating then Json.jstr "No Rating" else rating
  let price := if isEmptyStr price then Json.jstr "No Price" else price
  let link := if isEmptyStr link then Json.jstr "No Link" else link
  pure (PyRet.yelpRet ⟨name, zipcode, bus_type, phone, address, reviews, rating, price, link⟩)

/-- Embedding of format_nearby_places (lines 429-524): the string literal
No valid results. when the businesses key is absent, otherwise a loop over
the entries whose body always returns during the first iteration; when the
list is empty the loop body never runs and the function falls off the end,
returning the Python None. -/
def format_nearby_places (json_results : Json) : Except String PyRet := do
  let hasB ← pyHasKey json_results "businesses"
  if hasB then
    let list_dict_nearby ← pyGet json_results "businesses"
    let n ← pyLen list_dict_nearby
    if 0 < n then
      let entry ← pyIndexZero list_dict_nearby
      formatBusinessEntry entry
    else
      pure PyRet.pyNone
  else
    pure (PyRet.strRet "No valid results.")

/-! ### The relational mirror and get_zip_results -/

/-- One row of the zipcodes table.  All columns are TEXT NOT NULL and
Zipcode is the primary key. -/
structure ZipRow where
  zipcode : String
  latitude : String
  longitude : String
  city : String
  state : String
  timezone : String
deriving DecidableEq

/-- Embedding of the statement insert_zip (lines 58-61), INSERT OR IGNORE
INTO zipcodes: the insert is silently dropped when a row with the same
primary-key Zipcode already exists. -/
def insertZip (db : List ZipRow) (r : ZipRow) : List ZipRow :=
  if db.any (fun x => x.zipcode == r.zipcode) then db else db ++ [r]

/-- Binding a Python value into a TEXT NOT NULL column: TEXT affinity stores
the text form of strings, ints and bools; binding None violates the NOT NULL
constraint, and lists or dicts are unsupported binding types. -/
def bindText : Json → Except String String
  | .jstr s => .ok s
  | .jint n => .ok (toString n)
  | .jbool b => .ok (if b then "1" else "0")
  | .jnull => .error "IntegrityError: NOT NULL constraint failed"
  | _ => .error "InterfaceError: unsupported type"

/-- The row bound by conn.execute(insert_zip, [obj.zipcode, ...]) in
get_zip_results (line 536). -/
def bindZipRow (z : Zipcode) : Except String ZipRow := do
  let zipcode ← bindText z.zipcode
  let latitude ← bindText z.latitude
  let longitude ← bindText z.longitude
  let city ← bindText z.city
  let state ← bindText z.state
  let timezone ← bindText z.timezone
  pure ⟨zipcode, latitude, longitude, city, state, timezone⟩

/-- A sqlite3 connection over the zipcodes table: the durable on-disk state
and the working state of the implicit transaction opened by the first DML
statement. -/
structure Conn where
  durable : List ZipRow
  working : List ZipRow

/-- sqlite3.connect: the working state starts as the durable state. -/
def connect (db : List ZipRow) : Conn := ⟨db, db⟩

/-- conn.execute(insert_zip, ...): the insert lands in the working state of
the open transaction. -/
def execInsertZip (c : Conn) (r : ZipRow) : Conn :=
  ⟨c.durable, insertZip c.working r⟩

/-- conn.commit(): the working state becomes durable. -/
def connCommit (c : Conn) : Conn := ⟨c.working, c.working⟩

/-- conn.close() without a prior commit: the implicit transaction is rolled
back, so only the durable state survives. -/
def connClose (c : Conn) : List ZipRow := c.durable

/-- The SELECT of get_zip_results (lines 538-543): project City, State,
Timezone, Latitude, Longitude from the rows whose Zipcode equals the
interpolated literal.  A cursor of the same connection sees the working
state.  The zipcode is interpolated into the SQL text as an unquoted
numeric literal; under TEXT affinity it compares equal to exactly the TEXT
value with the same digits, modelled as string equality on the column. -/
def selectZipRows (working : List ZipRow) (zipcode : String) : List (List String) :=
  (working.filter (fun r => r.zipcode == zipcode)).map
    (fun r => [r.city, r.state, r.timezone, r.latitude, r.longitude])

/-- The zip_base url of the source (line 21), parameterized by the secret
api key. -/
def zipBase (zip_key : String) : String :=
  "https://www.zipcodeapi.com/rest/" ++ zip_key ++ "/info.json/"

/-- Embedding of get_zip_results (lines 530-545): connect, get-or-fetch the
location document, normalize it, insert the bound row, select by zipcode on
the same connection, close without committing and return the selected rows.
When normalization or binding raises, the exception propagates and the
connection is eventually closed without commit, so the durable state is
unchanged on every path.  The result triple is (returned rows or propagated
exception, cache file state, durable table state). -/
def get_zip_results (fetch : String → Json) (zip_key : String) (cache : Cache)
    (db : List ZipRow) (zipcode : String) :
    Except String (List (List String)) × Cache × List ZipRow :=
  let conn := connect db
  let call := zip_make_request_with_cache fetch cache (zipBase zip_key) (PyVal.vStr zipcode)
  match get_zip_instance call.result with
  | .error e => (.error e, call.cache, conn.durable)
  | .ok obj =>
    match bindZipRow obj with
    | .error e => (.error e, call.cache, conn.durable)
    | .ok row =>
      let conn2 := execInsertZip conn row
      (.ok (selectZipRows conn2.working zipcode), call.cache, connClose conn2)

/-! ### Concrete payloads used in the theorems -/

/-- An upstream error payload in the shape returned by the Zipcode API for an
unknown zip code. -/
def zipErrorPayload : Json :=
  .jobj [("error_code", .jint 404), ("error_msg", .jstr "Zip code not found.")]

/-- The location payload of the end-to-end scenario for zipcode 48109. -/
def payload48109 : Json :=
  .jobj [("zip_code", .jstr "48109"), ("lat", .jstr "42.27"), ("lng", .jstr "-83.75"),
         ("city", .jstr "Ann Arbor"), ("state", .jstr "MI"),
         ("timezone", .jobj [("timezone_abbr", .jstr "EST")])]

/-- A businesses payload whose single entry has a location object without a
zip_code but a top-level zip_code key, triggering the guard mismatch. -/
def partialBusinessPayload : Json :=
  .jobj [("businesses", .jarr
    [.jobj [("location", .jobj []), ("zip_code", .jstr "48109")]])]

/-- A businesses payload with two entries, each carrying only a name and a
url (in particular no phone). -/
def twoBusinessPayload : Json :=
  .jobj [("businesses", .jarr
    [.jobj [("name", .jstr "Lab Cafe"), ("url", .jstr "https://yelp.com/a")],
     .jobj [("name", .jstr "Blue Deli"), ("url", .jstr "https://yelp.com/b")]])]

/-! ### Theorems -/

/-- C1: for every endpoint/parameter pair, the first call to the get-or-fetch
operation (zip_make_request_with_cache / yelp_make_request_with_cache)
invokes the transport function exactly once and afterwards the cache mapping
contains the constructed key; every subsequent call with the same key returns
the stored value with zero transport invocations, taking the observable
fetching-cached-data path instead of the making-new-request path (the hit
leaves the cache unchanged, so all later calls behave like the second). -/
theorem get_or_fetch_first_miss_then_hits
    (zfetch : String → Json) (yfetch : String → List (String × PyVal) → Json)
    (cache cacheY : Cache) (search_url baseurl : String) (zipcode : PyVal)
    (zopt : Option PyVal) (term : Option String)
    (hz : cacheLookup cache (zipQueryUrl search_url zipcode) = none)
    (hy : cacheLookup cacheY (construct_unique_key baseurl (yelpParams zopt term)) = none) :
    ((zip_make_request_with_cache zfetch cache search_url zipcode).calls = 1 ∧
     (zip_make_request_with_cache zfetch cache search_url zipcode).path = CallPath.newRequest ∧
     cacheLookup (zip_make_request_with_cache zfetch cache search_url zipcode).cache
        (zipQueryUrl search_url zipcode) =
        some (zip_make_request_with_cache zfetch cache search_url zipcode).result ∧
     (zip_make_request_with_cache zfetch
        (zip_make_request_with_cache zfetch cache search_url zipcode).cache
        search_url zipcode).result =
        (zip_make_request_with_cache zfetch cache search_url zipcode).result ∧
     (zip_make_request_with_cache zfetch
        (zip_make_request_with_cache zfetch cache search_url zipcode).cache
        search_url zipcode).calls = 0 ∧
     (zip_make_request_with_cache zfetch
        (zip_make_request_with_cache zfetch cache search_url zipcode).cache
        search_url zipcode).path = CallPath.cachedData ∧
     (zip_make_request_with_cache zfetch
        (zip_make_request_with_cache zfetch cache search_url zipcode).cache
        search_url zipcode).cache =
        (zip_make_request_with_cache zfetch cache search_url zipcode).cache) ∧
    ((yelp_make_request_with_cache yfetch cacheY baseurl zopt term).calls = 1 ∧
     (yelp_make_request_with_cache yfetch cacheY baseurl zopt term).path = CallPath.newRequest ∧
     cacheLookup (yelp_make_request_with_cache yfetch cacheY baseurl zopt term).cache
        (construct_unique_key baseurl (yelpParams zopt term)) =
        some (yelp_make_request_with_cache yfetch cacheY baseurl zopt term).result ∧
     (yelp_make_request_with_cache yfetch
        (yelp_make_request_with_cache yfetch cacheY baseurl zopt term).cache
        baseurl zopt term).result =
        (yelp_make_request_with_cache yfetch cacheY baseurl zopt term).result ∧
     (yelp_make_request_with_cache yfetch
        (yelp_make_request_with_cache yfetch cacheY baseurl zopt term).cache
        baseurl zopt term).calls = 0 ∧
     (yelp_make_request_with_cache yfetch
        (yelp_make_request_with_cache yfetch cacheY baseurl zopt term).cache
        baseurl zopt term).path = CallPath.cachedData ∧
     (yelp_make_request_with_cache yfetch
        (yelp_make_request_with_cache yfetch cacheY baseurl zopt term).cache
        baseurl zopt term).cache =
        (yelp_make_request_with_cache yfetch cacheY baseurl zopt term).cache) := by
  have hz' : List.lookup (zipQueryUrl search_url zipcode) cache = none := hz
  have hy' : List.lookup (construct_unique_key baseurl (yelpParams zopt term)) cacheY = none := hy
  constructor
  · simp [zip_make_request_with_cache, cacheLookup, cacheInsert, hz', List.lookup]
  · simp [yelp_make_request_with_cache, cacheLookup, cacheInsert, hy', List.lookup]

/-- Witness for C1 at a concrete transport, empty cache and concrete
endpoint/parameter pairs. -/
theorem get_or_fetch_first_miss_then_hits_witness :
    cacheLookup [] (zipQueryUrl "u" (PyVal.vStr "48109")) = none ∧
    cacheLookup [] (construct_unique_key "b"
      (yelpParams (some (PyVal.vInt 48080)) (some "coffee"))) = none ∧
    (zip_make_request_with_cache (fun _ => Json.jnull) [] "u" (PyVal.vStr "48109")).calls = 1 ∧
    (yelp_make_request_with_cache (fun _ _ => Json.jnull) [] "b"
      (some (PyVal.vInt 48080)) (some "coffee")).calls = 1 :=
  ⟨rfl, rfl,
    (get_or_fetch_first_miss_then_hits (fun _ => Json.jnull) (fun _ _ => Json.jnull)
      [] [] "u" "b" (PyVal.vStr "48109") (some (PyVal.vInt 48080)) (some "coffee")
      rfl rfl).1.1,
    (get_or_fetch_first_miss_then_hits (fun _ => Json.jnull) (fun _ _ => Json.jnull)
      [] [] "u" "b" (PyVal.vStr "48109") (some (PyVal.vInt 48080)) (some "coffee")
      rfl rfl).2.1⟩

/-- C2 counterexample: a fetched payload carrying the upstream error
indicator error_code is returned as-is and stored verbatim in the cache under
the request key, so an error payload is cached, contrary to the claim. -/
theorem error_payload_cached_verbatim_counterexample :
    (zip_make_request_with_cache (fun _ => zipErrorPayload) [] "base/"
      (PyVal.vStr "00000")).result = zipErrorPayload ∧
    cacheLookup (zip_make_request_with_cache (fun _ => zipErrorPayload) [] "base/"
      (PyVal.vStr "00000")).cache (zipQueryUrl "base/" (PyVal.vStr "00000")) =
      some zipErrorPayload ∧
    pyHasKey zipErrorPayload "error_code" = .ok true :=
  ⟨rfl, rfl, rfl⟩

/-- C2 amended: on a cache miss the get-or-fetch operation returns whatever
payload the transport produced, without raising and without inspecting it for
an error indicator, and stores exactly that payload in the cache under the
request key; no normalization to a no-result value occurs before the cache
write. -/
theorem gate_returns_and_caches_payload_verbatim
    (zfetch : String → Json) (cache : Cache) (url : String) (z : PyVal)
    (h : cacheLookup cache (zipQueryUrl url z) = none)
    (yfetch : String → List (String × PyVal) → Json) (cacheY : Cache)
    (baseurl : String) (zopt : Option PyVal) (term : Option String)
    (hy : cacheLookup cacheY (construct_unique_key baseurl (yelpParams zopt term)) = none) :
    (zip_make_request_with_cache zfetch cache url z).result = zfetch (zipQueryUrl url z) ∧
    cacheLookup (zip_make_request_with_cache zfetch cache url z).cache (zipQueryUrl url z) =
      some (zfetch (zipQueryUrl url z)) ∧
    (yelp_make_request_with_cache yfetch cacheY baseurl zopt term).result =
      yfetch baseurl (lowerParams (yelpParams zopt term)) ∧
    cacheLookup (yelp_make_request_with_cache yfetch cacheY baseurl zopt term).cache
      (construct_unique_key baseurl (yelpParams zopt term)) =
      some (yfetch baseurl (lowerParams (yelpParams zopt term))) := by
  have h' : List.lookup (zipQueryUrl url z) cache = none := h
  have hy' : List.lookup (construct_unique_key baseurl (yelpParams zopt term)) cacheY = none := hy
  refine ⟨?_, ?_, ?_, ?_⟩ <;>
    simp [zip_make_request_with_cache, yelp_make_request_with_cache, yelp_make_request,
      zip_make_request, cacheLookup, cacheInsert, h', hy', List.lookup]

/-- Witness for C2 amended: the transport returns the concrete error payload
and the gate caches it unchanged. -/
theorem gate_returns_and_caches_payload_verbatim_witness :
    cacheLookup [] (zipQueryUrl "base/" (PyVal.vStr "99999")) = none ∧
    cacheLookup [] (construct_unique_key "yb" (yelpParams (some (PyVal.vStr "99999")) none)) = none ∧
    (zip_make_request_with_cache (fun _ => zipErrorPayload) [] "base/"
      (PyVal.vStr "99999")).result = zipErrorPayload ∧
    cacheLookup (zip_make_request_with_cache (fun _ => zipErrorPayload) [] "base/"
      (PyVal.vStr "99999")).cache (zipQueryUrl "base/" (PyVal.vStr "99999")) =
      some zipErrorPayload :=
  ⟨rfl, rfl,
    (gate_returns_and_caches_payload_verbatim (fun _ => zipErrorPayload) [] "base/"
      (PyVal.vStr "99999") rfl (fun _ _ => Json.jnull) [] "yb"
      (some (PyVal.vStr "99999")) none rfl).1,
    (gate_returns_and_caches_payload_verbatim (fun _ => zipErrorPayload) [] "base/"
      (PyVal.vStr "99999") rfl (fun _ _ => Json.jnull) [] "yb"
      (some (PyVal.vStr "99999")) none rfl).2.1⟩

/-- C3 counterexample: on the empty JSON object get_zip_instance raises
KeyError instead of producing the all-placeholder record, and on None it
raises TypeError instead of producing an absent value. -/
theorem get_zip_instance_raises_counterexample :
    get_zip_instance (Json.jobj []) = .error "KeyError: zip_code" ∧
    get_zip_instance Json.jnull = .error "TypeError: object is not subscriptable" ∧
    get_zip_instance (Json.jobj []) ≠
      .ok ⟨Json.jstr "No Zipcode", Json.jstr "No Latitude", Json.jstr "No Longitude",
           Json.jstr "No City", Json.jstr "No State", Json.jstr "No Timezone"⟩ :=
  ⟨rfl, rfl, fun h => Except.noConfusion h⟩

/-- C3 amended: get_zip_instance raises (KeyError or TypeError) on None or on
an input missing any of the six extraction paths; when all six paths are
present, each extracted value equal to the empty string is replaced by its
fixed placeholder and the remaining values pass through unchanged, without
raising. -/
theorem get_zip_instance_placeholders_when_all_present (z la lo c s tz : Json) :
    get_zip_instance (Json.jobj [("zip_code", z), ("lat", la), ("lng", lo), ("city", c),
        ("state", s), ("timezone", Json.jobj [("timezone_abbr", tz)])]) =
      .ok ⟨if isEmptyStr z then Json.jstr "No Zipcode" else z,
           if isEmptyStr la then Json.jstr "No Latitude" else la,
           if isEmptyStr lo then Json.jstr "No Longitude" else lo,
           if isEmptyStr c then Json.jstr "No City" else c,
           if isEmptyStr s then Json.jstr "No State" else s,
           if isEmptyStr tz then Json.jstr "No Timezone" else tz⟩ := rfl

/-- C4: the code contradicts the claim: the zip_code guard consults the keys
of the entry while the access indexes the nested location object, so a
payload whose entry has a location without zip_code but a top-level zip_code
key raises KeyError; moreover the loop returns during its first iteration, so
a two-entry payload yields a single record (the first entry, with No Phone
substituted for its missing phone) instead of one record per entry. -/
theorem format_nearby_places_failing_input_eval :
    format_nearby_places partialBusinessPayload = .error "KeyError: zip_code" ∧
    format_nearby_places twoBusinessPayload = .ok (PyRet.yelpRet
      ⟨Json.jstr "Lab Cafe", Json.jstr "No Zip", Json.jstr "No Type", Json.jstr "No Phone",
       Json.jstr "No Address", Json.jstr "No Reviews", Json.jstr "No Rating",
       Json.jstr "No Price", Json.jstr "https://yelp.com/a"⟩) :=
  ⟨rfl, rfl⟩

/-- C5: for every base endpoint string and every parameter mapping,
construct_unique_key formats each parameter as key_value, sorts these
fragments lexicographically, joins them with underscores, and prefixes the
endpoint followed by an underscore; consequently parameter mappings that are
permutations of each other yield identical keys. -/
theorem construct_unique_key_perm_invariant (baseurl : String)
    (P1 P2 : List (String × PyVal)) (h : P1.Perm P2) :
    (construct_unique_key baseurl P1 =
      baseurl ++ "_" ++ String.intercalate "_"
        (pySort (P1.map (fun p => p.1 ++ "_" ++ pyFormat p.2)))) ∧
    construct_unique_key baseurl P1 = construct_unique_key baseurl P2 := by
  constructor
  · rfl
  · have hperm : (P1.map (fun p => p.1 ++ "_" ++ pyFormat p.2)).Perm
        (P2.map (fun p => p.1 ++ "_" ++ pyFormat p.2)) := h.map _
    have hsort : pySort (P1.map (fun p => p.1 ++ "_" ++ pyFormat p.2)) =
        pySort (P2.map (fun p => p.1 ++ "_" ++ pyFormat p.2)) := by
      refine List.eq_of_perm_of_sorted (r := pyStrLe) ?_ ?_ ?_
      · exact ((List.perm_insertionSort pyStrLe _).trans hperm).trans
          (List.perm_insertionSort pyStrLe _).symm
      · exact List.sorted_insertionSort pyStrLe _
      · exact List.sorted_insertionSort pyStrLe _
    simp only [construct_unique_key]
    rw [hsort]

/-- Witness for C5 at a concrete pair of permuted parameter mappings. -/
theorem construct_unique_key_perm_invariant_witness :
    ([("location", PyVal.vInt 48109), ("term", PyVal.vStr "coffee")] :
        List (String × PyVal)).Perm
      [("term", PyVal.vStr "coffee"), ("location", PyVal.vInt 48109)] ∧
    construct_unique_key "https://api.yelp.com/v3/businesses/search"
        [("location", PyVal.vInt 48109), ("term", PyVal.vStr "coffee")] =
      construct_unique_key "https://api.yelp.com/v3/businesses/search"
        [("term", PyVal.vStr "coffee"), ("location", PyVal.vInt 48109)] :=
  ⟨by decide,
    (construct_unique_key_perm_invariant "https://api.yelp.com/v3/businesses/search"
      [("location", PyVal.vInt 48109), ("term", PyVal.vStr "coffee")]
      [("term", PyVal.vStr "coffee"), ("location", PyVal.vInt 48109)] (by decide)).2⟩

/-- C6 counterexample: for the 48109 end-to-end scenario the row returned by
get_zip_results holds five values in the order City, State, Timezone,
Latitude, Longitude, not the six record values in insertion order claimed. -/
theorem get_zip_results_five_columns_counterexample :
    (get_zip_results (fun _ => payload48109) "KEY" [] [] "48109").1 =
      .ok [["Ann Arbor", "MI", "EST", "42.27", "-83.75"]] ∧
    ([["Ann Arbor", "MI", "EST", "42.27", "-83.75"]] : List (List String)) ≠
      [["48109", "42.27", "-83.75", "Ann Arbor", "MI", "EST"]] :=
  ⟨rfl, by decide⟩

/-- C6 amended: in the 48109 end-to-end scenario the normalized record
matches the payload fields exactly (no placeholders applied), and the
subsequent query returns one row holding five of those values in the order
City, State, Timezone, Latitude, Longitude; the zipcode itself is not among
the selected columns. -/
theorem get_zip_results_48109_end_to_end :
    get_zip_instance payload48109 =
      .ok ⟨Json.jstr "48109", Json.jstr "42.27", Json.jstr "-83.75",
           Json.jstr "Ann Arbor", Json.jstr "MI", Json.jstr "EST"⟩ ∧
    (get_zip_results (fun _ => payload48109) "KEY" [] [] "48109").1 =
      .ok [["Ann Arbor", "MI", "EST", "42.27", "-83.75"]] :=
  ⟨rfl, rfl⟩

/-- C7 counterexample: on an empty businesses list format_nearby_places
returns the Python None, while with the businesses key absent it returns the
string No valid results.; the two outcomes differ and neither is an empty
sequence of records. -/
theorem format_nearby_places_empty_counterexample :
    format_nearby_places (Json.jobj [("businesses", Json.jarr [])]) = .ok PyRet.pyNone ∧
    format_nearby_places (Json.jobj []) = .ok (PyRet.strRet "No valid results.") ∧
    PyRet.pyNone ≠ PyRet.strRet "No valid results." :=
  ⟨rfl, rfl, fun h => PyRet.noConfusion h⟩

/-- C7 amended: applied to an object whose businesses list is empty the
function returns the Python None (no record is produced), and when the
businesses key is absent it returns the string No valid results.; neither
case raises. -/
theorem format_nearby_places_empty_and_missing :
    format_nearby_places (Json.jobj [("businesses", Json.jarr [])]) = .ok PyRet.pyNone ∧
    format_nearby_places (Json.jobj []) = .ok (PyRet.strRet "No valid results.") :=
  ⟨rfl, rfl⟩

/-- C8: inserting a location row and then a second row with the same zipcode
into a table that previously held no row for that zipcode leaves exactly one
row for the zipcode, and the surviving row holds the first insert values (the
second INSERT OR IGNORE is silently dropped). -/
theorem insert_zip_first_write_wins (db : List ZipRow) (r1 r2 : ZipRow)
    (hz : r2.zipcode = r1.zipcode) (h0 : ∀ r ∈ db, r.zipcode ≠ r1.zipcode) :
    (insertZip (insertZip db r1) r2).filter (fun r => r.zipcode == r1.zipcode) = [r1] := by
  have hany : (db.any (fun x => x.zipcode == r1.zipcode)) = false := by
    rw [List.any_eq_false]
    intro x hx
    simpa using h0 x hx
  have h1 : insertZip db r1 = db ++ [r1] := by simp [insertZip, hany]
  have hany2 : ((db ++ [r1]).any (fun x => x.zipcode == r2.zipcode)) = true := by
    rw [List.any_eq_true]
    exact ⟨r1, by simp, by simp [hz]⟩
  have h2 : insertZip (db ++ [r1]) r2 = db ++ [r1] := by simp [insertZip, hany2]
  rw [h1, h2, List.filter_append]
  have hnil : db.filter (fun r => r.zipcode == r1.zipcode) = [] := by
    rw [List.filter_eq_nil_iff]
    intro x hx
    simpa using h0 x hx
  simp [hnil]

/-- Witness for C8: inserting the 48109 row twice with differing ancillary
fields into an empty table leaves exactly the first row. -/
theorem insert_zip_first_write_wins_witness :
    (ZipRow.mk "48109" "0" "0" "Elsewhere" "XX" "PST").zipcode =
      (ZipRow.mk "48109" "42.27" "-83.75" "Ann Arbor" "MI" "EST").zipcode ∧
    (insertZip (insertZip [] (ZipRow.mk "48109" "42.27" "-83.75" "Ann Arbor" "MI" "EST"))
        (ZipRow.mk "48109" "0" "0" "Elsewhere" "XX" "PST")).filter
        (fun r => r.zipcode == (ZipRow.mk "48109" "42.27" "-83.75" "Ann Arbor" "MI" "EST").zipcode) =
      [ZipRow.mk "48109" "42.27" "-83.75" "Ann Arbor" "MI" "EST"] :=
  ⟨rfl, insert_zip_first_write_wins []
    (ZipRow.mk "48109" "42.27" "-83.75" "Ann Arbor" "MI" "EST")
    (ZipRow.mk "48109" "0" "0" "Elsewhere" "XX" "PST") rfl (by simp)⟩

/-- C9: every get_zip_results call closes its connection without committing,
so the durable table state is unchanged on every path, while the SELECT on
the same still-open connection can observe the inserted row, as the concrete
48109 run shows: one row is returned although the durable state stays
empty. -/
theorem get_zip_results_never_commits :
    (∀ (fetch : String → Json) (zip_key : String) (cache : Cache)
        (db : List ZipRow) (zipcode : String),
      (get_zip_results fetch zip_key cache db zipcode).2.2 = db) ∧
    (get_zip_results (fun _ => payload48109) "KEY" [] [] "48109").1 =
      .ok [["Ann Arbor", "MI", "EST", "42.27", "-83.75"]] ∧
    (get_zip_results (fun _ => payload48109) "KEY" [] [] "48109").2.2 = [] := by
  refine ⟨?_, rfl, rfl⟩
  intro fetch zip_key cache db zipcode
  dsimp only [get_zip_results]
  split
  · rfl
  · split
    · rfl
    · rfl

/-- Evaluation of the canonical key for a yelp search with a location and a
term: the sorted fragments are limit, location, term in that order. -/
theorem yelpKey_eval (baseurl : String) (z : PyVal) (t : String) :
    construct_unique_key baseurl (yelpParams (some z) (some t)) =
      baseurl ++ "_" ++ ((("limit" ++ "_" ++ pyFormat (PyVal.vInt 10)) ++ "_" ++
        ("location" ++ "_" ++ pyFormat z)) ++ "_" ++ ("term" ++ "_" ++ t)) := rfl

/-- The canonical key determines the search term when endpoint and location
agree: the term is the suffix of the key after a fixed prefix. -/
theorem yelpKey_inj (baseurl : String) (z : PyVal) (t1 t2 : String)
    (h : construct_unique_key baseurl (yelpParams (some z) (some t1)) =
         construct_unique_key baseurl (yelpParams (some z) (some t2))) : t1 = t2 := by
  rw [yelpKey_eval, yelpKey_eval] at h
  have h' := congrArg String.data h
  simp only [String.data_append, List.append_assoc] at h'
  repeat replace h' := List.append_cancel_left h'
  exact String.toList_inj.mp h'

/-- C10: yelp_make_request_with_cache builds its cache key from the parameter
values as supplied while yelp_make_request lowercases string values before
sending; hence two search terms differing only in letter case produce
distinct cache keys and two separate live fetches, although the parameters
sent upstream are identical. -/
theorem yelp_cache_key_case_sensitive
    (yfetch : String → List (String × PyVal) → Json) (baseurl : String) (z : PyVal)
    (t1 t2 : String) (c0 : Cache) (hne : t1 ≠ t2) (hlow : pyLower t1 = pyLower t2)
    (h1 : cacheLookup c0 (construct_unique_key baseurl (yelpParams (some z) (some t1))) = none)
    (h2 : cacheLookup c0 (construct_unique_key baseurl (yelpParams (some z) (some t2))) = none) :
    construct_unique_key baseurl (yelpParams (some z) (some t1)) ≠
      construct_unique_key baseurl (yelpParams (some z) (some t2)) ∧
    (yelp_make_request_with_cache yfetch c0 baseurl (some z) (some t1)).calls = 1 ∧
    (yelp_make_request_with_cache yfetch
      (yelp_make_request_with_cache yfetch c0 baseurl (some z) (some t1)).cache
      baseurl (some z) (some t2)).calls = 1 ∧
    (yelp_make_request_with_cache yfetch c0 baseurl (some z) (some t1)).sent =
      some (lowerParams (yelpParams (some z) (some t1))) ∧
    (yelp_make_request_with_cache yfetch
      (yelp_make_request_with_cache yfetch c0 baseurl (some z) (some t1)).cache
      baseurl (some z) (some t2)).sent =
      some (lowerParams (yelpParams (some z) (some t2))) ∧
    lowerParams (yelpParams (some z) (some t1)) =
      lowerParams (yelpParams (some z) (some t2)) := by
  have hk : construct_unique_key baseurl (yelpParams (some z) (some t1)) ≠
      construct_unique_key baseurl (yelpParams (some z) (some t2)) :=
    fun h => hne (yelpKey_inj baseurl z t1 t2 h)
  have h1' : List.lookup (construct_unique_key baseurl (yelpParams (some z) (some t1))) c0 =
      none := h1
  have h2' : List.lookup (construct_unique_key baseurl (yelpParams (some z) (some t2))) c0 =
      none := h2
  have hlowp : lowerParams (yelpParams (some z) (some t1)) =
      lowerParams (yelpParams (some z) (some t2)) := by
    simp only [lowerParams, yelpParams, List.map, List.cons_append, List.nil_append]
    rw [hlow]
  refine ⟨hk, ?_, ?_, ?_, ?_, hlowp⟩ <;>
    simp [yelp_make_request_with_cache, yelp_make_request, cacheLookup, cacheInsert,
      h1', h2', List.lookup, beq_eq_false_iff_ne.mpr (Ne.symm hk)]

/-- Witness for C10 with the terms Coffee and coffee. -/
theorem yelp_cache_key_case_sensitive_witness :
    ("Coffee" : String) ≠ "coffee" ∧ pyLower "Coffee" = pyLower "coffee" ∧
    construct_unique_key "b" (yelpParams (some (PyVal.vInt 48080)) (some "Coffee")) ≠
      construct_unique_key "b" (yelpParams (some (PyVal.vInt 48080)) (some "coffee")) ∧
    (yelp_make_request_with_cache (fun _ _ => Json.jnull) [] "b"
      (some (PyVal.vInt 48080)) (some "Coffee")).calls = 1 :=
  ⟨by decide, rfl,
    (yelp_cache_key_case_sensitive (fun _ _ => Json.jnull) "b" (PyVal.vInt 48080)
      "Coffee" "coffee" [] (by decide) rfl rfl rfl).1,
    (yelp_cache_key_case_sensitive (fun _ _ => Json.jnull) "b" (PyVal.vInt 48080)
      "Coffee" "coffee" [] (by decide) rfl rfl rfl).2.1⟩

end FinalProj
